import Mathlib

/-!
Shallow embedding of the soft real-time control-loop repository
(sensor channels -> commander -> actuators, with benchmark statistics).

Conventions of the embedding:
  * `f64` values (sensor values, PID state, feedback offsets) are modelled
    as `ℚ`; every concrete computation the claims mention is exact in
    binary floating point as well as in `ℚ`.
  * `std::time::Duration` values are modelled as `ℕ` nanoseconds; elapsed
    wall-clock times that the code measures with `Instant::now()` are
    passed to the embedded functions as explicit parameters.
  * `u32`/`i32` counters are modelled as `ℕ`/`ℤ`; the claims under study
    are insensitive to two's-complement wraparound, which is unreachable
    in the modelled runs.
  * Channel sends and log writes are modelled by the data they would carry
    (returned values / booleans), since the claims only concern which
    messages are produced, not the transport.
-/

namespace RtsAssignment

/-- `share.rs`: `enum SensorType { Force, Position, Temperature }`. -/
inductive SensorType where
  | Force
  | Position
  | Temperature
deriving DecidableEq, Repr

/-- `share.rs`: `enum SystemMode { Normal, Degraded, EmergencyStop }`. -/
inductive SystemMode where
  | Normal
  | Degraded
  | EmergencyStop
deriving DecidableEq, Repr

/-- `share.rs`: `struct SensorData`.  The two `Instant` fields
(`timestamp`, `processed_timestamp`) are wall-clock stamps; the elapsed
durations computed from them are passed explicitly to the embedded
functions, so the stamps themselves are omitted from the record. -/
structure SensorData where
  id : ℤ
  sensor_type : SensorType
  value : ℚ
  anomaly : Bool
deriving DecidableEq, Repr

/-- `share.rs`: `struct Feedback` (the `timestamp: Instant` field is
modelled by the message age passed to the consumers). -/
structure Feedback where
  is_ack : Bool
  error_msg : String
  recalibrate_offset : ℚ
deriving DecidableEq, Repr

/-- `share.rs`: `struct PidController`. -/
structure PidController where
  kp : ℚ
  ki : ℚ
  kd : ℚ
  integral : ℚ
  prev_error : ℚ
deriving DecidableEq, Repr

/-- `share.rs`: `PidController::new` — gains as given, accumulators zero. -/
def PidController.new (kp ki kd : ℚ) : PidController :=
  { kp := kp, ki := ki, kd := kd, integral := 0, prev_error := 0 }

/-- `share.rs`: `PidController::compute(&mut self, target, current, dt, scale)`.
Returns the control effort together with the mutated controller. -/
def PidController.compute (p : PidController) (target current dt scale : ℚ) :
    ℚ × PidController :=
  let error := target - current
  let integral := p.integral + error * dt
  let derivative := (error - p.prev_error) / dt
  (((p.kp * error) + (p.ki * integral) + (p.kd * derivative)) * scale,
    { p with integral := integral, prev_error := error })

/-- `share.rs`: `struct BenchmarkStats`.  Duration fields are nanosecond
counts, `u32` fields are naturals (wraparound unreachable in the modelled
runs). -/
structure BenchmarkStats where
  sensor_count : ℕ
  actuator_count : ℕ
  total_actuator_time : ℕ
  total_gen_time : ℕ
  total_proc_time : ℕ
  total_trans_time : ℕ
  total_jitter : ℕ
  max_jitter : ℕ
  total_at_jitter : ℕ
  max_at_jitter : ℕ
  total_latency : ℕ
  sensor_missed_deadlines : ℕ
  actuator_missed_deadlines : ℕ
deriving DecidableEq, Repr

/-- `share.rs`: `BenchmarkStats::new` = `Default::default()` (all zero). -/
def BenchmarkStats.new : BenchmarkStats :=
  { sensor_count := 0, actuator_count := 0, total_actuator_time := 0,
    total_gen_time := 0, total_proc_time := 0, total_trans_time := 0,
    total_jitter := 0, max_jitter := 0, total_at_jitter := 0,
    max_at_jitter := 0, total_latency := 0,
    sensor_missed_deadlines := 0, actuator_missed_deadlines := 0 }

/-- `share.rs`: `BenchmarkStats::merge(&mut self, other)`, written as the
pure function taking `self` to its post-state. -/
def BenchmarkStats.merge (s other : BenchmarkStats) : BenchmarkStats :=
  { sensor_count := s.sensor_count + other.sensor_count,
    actuator_count := s.actuator_count + other.actuator_count,
    sensor_missed_deadlines :=
      s.sensor_missed_deadlines + other.sensor_missed_deadlines,
    actuator_missed_deadlines :=
      s.actuator_missed_deadlines + other.actuator_missed_deadlines,
    total_gen_time := s.total_gen_time + other.total_gen_time,
    total_proc_time := s.total_proc_time + other.total_proc_time,
    total_trans_time := s.total_trans_time + other.total_trans_time,
    total_jitter := s.total_jitter + other.total_jitter,
    total_at_jitter := s.total_at_jitter + other.total_at_jitter,
    max_jitter := max s.max_jitter other.max_jitter,
    max_at_jitter := max s.max_at_jitter other.max_at_jitter,
    total_actuator_time := s.total_actuator_time + other.total_actuator_time,
    total_latency := s.total_latency + other.total_latency }

/-- `share.rs`: `BenchmarkStats::avg_gen` (Duration division; a `Duration`
divided by a `u32` truncates to integral nanoseconds). -/
def BenchmarkStats.avg_gen (s : BenchmarkStats) : ℕ :=
  if s.sensor_count = 0 then 0 else s.total_gen_time / s.sensor_count

/-- `share.rs`: `BenchmarkStats::avg_proc`. -/
def BenchmarkStats.avg_proc (s : BenchmarkStats) : ℕ :=
  if s.sensor_count = 0 then 0 else s.total_proc_time / s.sensor_count

/-- `share.rs`: `BenchmarkStats::avg_trans`. -/
def BenchmarkStats.avg_trans (s : BenchmarkStats) : ℕ :=
  if s.sensor_count = 0 then 0 else s.total_trans_time / s.sensor_count

/-- `share.rs`: `BenchmarkStats::avg_jitter`. -/
def BenchmarkStats.avg_jitter (s : BenchmarkStats) : ℕ :=
  if s.sensor_count = 0 then 0 else s.total_jitter / s.sensor_count

/-- `share.rs`: `BenchmarkStats::avg_at_jitter` (guarded by
`actuator_count`). -/
def BenchmarkStats.avg_at_jitter (s : BenchmarkStats) : ℕ :=
  if s.actuator_count = 0 then 0 else s.total_at_jitter / s.actuator_count

/-- `share.rs`: `BenchmarkStats::avg_actuator`. -/
def BenchmarkStats.avg_actuator (s : BenchmarkStats) : ℕ :=
  if s.sensor_count = 0 then 0 else s.total_actuator_time / s.sensor_count

/-- `share.rs`: `BenchmarkStats::avg_latency`. -/
def BenchmarkStats.avg_latency (s : BenchmarkStats) : ℕ :=
  if s.sensor_count = 0 then 0 else s.total_latency / s.sensor_count

/-- `share.rs`: `BenchmarkStats::throughput(total_run_time)`; the argument
is nanoseconds, `as_secs_f64` is exact division by `10^9`. -/
def BenchmarkStats.throughput (s : BenchmarkStats) (total_run_time : ℕ) : ℚ :=
  if (total_run_time : ℚ) / 1000000000 = 0 then 0
  else (s.sensor_count : ℚ) / ((total_run_time : ℚ) / 1000000000)

/-- `share.rs`: `BenchmarkStats::sensor_deadline_rate` — an UNGUARDED
`f64` division.  When `sensor_count == 0` the Rust expression produces a
non-finite `f64` (NaN or infinity), which `ℚ` cannot represent, so the
embedding returns `none` in exactly that case and the exact rational
otherwise. -/
def BenchmarkStats.sensor_deadline_rate (s : BenchmarkStats) : Option ℚ :=
  if s.sensor_count = 0 then none
  else some (((s.sensor_missed_deadlines : ℚ) / (s.sensor_count : ℚ)) * 100)

/-- `share.rs`: `BenchmarkStats::actuator_deadline_rate` — likewise an
unguarded `f64` division, `none` exactly when `actuator_count == 0`. -/
def BenchmarkStats.actuator_deadline_rate (s : BenchmarkStats) : Option ℚ :=
  if s.actuator_count = 0 then none
  else some (((s.actuator_missed_deadlines : ℚ) / (s.actuator_count : ℚ)) * 100)

/-- `sensor_multiThread.rs`: the mutable state of `struct Sensor` touched
by `process_data` and the feedback intake (`id_counter` is irrelevant to
the claims and omitted; the log handle is modelled away). -/
structure Sensor where
  history_buffer : List ℚ
  calibration_offset : ℚ
  benchmark_stats : BenchmarkStats
deriving DecidableEq, Repr

/-- `sensor_multiThread.rs`: `Sensor::new` — empty buffer, zero offset,
fresh stats. -/
def Sensor.init : Sensor :=
  { history_buffer := [], calibration_offset := 0,
    benchmark_stats := BenchmarkStats.new }

/-- `sensor_multiThread.rs` / `sensor_async.rs`, "2.1 Detect Anomaly":
the per-quantity threshold conditions under which `data.anomaly` is set
to `true`. -/
def detect_anomaly (t : SensorType) (v : ℚ) : Bool :=
  match t with
  | SensorType.Force => decide (v < 5 ∨ v > 60)
  | SensorType.Position => decide (|v| > 1/2)
  | SensorType.Temperature => decide (v > 120)

/-- The `match` statement of `process_data` step 2.1: `data.anomaly` is
assigned `true` when the threshold condition holds and is left unchanged
otherwise. -/
def applyAnomaly (d : SensorData) : SensorData :=
  { d with anomaly := d.anomaly || detect_anomaly d.sensor_type d.value }

/-- `sensor_multiThread.rs`: `Sensor::process_data` (identical logic in
`sensor_async.rs`).  `procElapsed` is the value of `start.elapsed()` at
the deadline check, in nanoseconds (the source compares it against
`Duration::from_micros(200)`).  Returns the mutated sensor and the
optional forwarded reading (`None` = dropped). -/
def Sensor.process_data (s : Sensor) (data : SensorData) (procElapsed : ℕ) :
    Sensor × Option SensorData :=
  let data := applyAnomaly data
  if data.anomaly then (s, some data)
  else
    let buf :=
      (if s.history_buffer.length ≥ 5 then s.history_buffer.tail
       else s.history_buffer) ++ [data.value]
    let data := { data with value := buf.sum / (buf.length : ℚ) }
    if procElapsed > 200000 then
      ({ s with
          history_buffer := buf
          benchmark_stats := { s.benchmark_stats with
            sensor_missed_deadlines :=
              s.benchmark_stats.sensor_missed_deadlines + 1 } }, none)
    else ({ s with history_buffer := buf }, some data)

/-- Feed a list of raw values through `Sensor.process_data` as fresh
Force readings (with zero processing elapsed time, so nothing is
dropped), collecting the forwarded values in order. -/
def Sensor.runRaws (s : Sensor) : List ℚ → Sensor × List ℚ
  | [] => (s, [])
  | v :: vs =>
      let r := s.process_data
        { id := 0, sensor_type := SensorType.Force, value := v,
          anomaly := false } 0
      let rest := Sensor.runRaws r.1 vs
      (rest.1,
        (match r.2 with
         | some d => [d.value]
         | none => []) ++ rest.2)

/-- `sensor_multiThread.rs`: the tail of the `run` cycle body — the loop
`break`s only when a forwarded reading's transmission fails; a dropped
reading (`None`) never ends the cycle. -/
def Sensor.cycleContinues (processed : Option SensorData)
    (transmit_ok : Bool) : Bool :=
  match processed with
  | none => true
  | some _ => transmit_ok

/-- `sensor_multiThread.rs`: `Sensor::run`, feedback intake (lines
156-179).  `age` is `arrival_time.duration_since(fb.timestamp)` in
nanoseconds; the source compares it against `Duration::from_micros(100)`
(while logging a 500 µs limit) and increments
`actuator_missed_deadlines` on a miss. -/
def Sensor.feedback_latency_check (s : Sensor) (age : ℕ) : Sensor :=
  let s := { s with benchmark_stats := { s.benchmark_stats with
    total_trans_time := s.benchmark_stats.total_trans_time + age } }
  if age > 100000 then
    { s with benchmark_stats := { s.benchmark_stats with
        actuator_missed_deadlines :=
          s.benchmark_stats.actuator_missed_deadlines + 1 } }
  else s

/-- `sensor_async.rs`: `SensorAsync::run`, feedback intake (lines
182-189): the latency is compared against `Duration::from_micros(500)`. -/
def SensorAsync.feedback_latency_check (s : Sensor) (age : ℕ) : Sensor :=
  if age > 500000 then
    { s with benchmark_stats := { s.benchmark_stats with
        actuator_missed_deadlines :=
          s.benchmark_stats.actuator_missed_deadlines + 1 } }
  else s

/-- `actuator_commander_multi_thread.rs`: the mutable state of
`struct ActuatorCommander` relevant to control and fail-safe handling.
The `HashMap<SensorType, PidController>` always holds all three keys
(populated in `new`), so it is modelled as a total function. -/
structure ActuatorCommander where
  pids : SensorType → PidController
  system_mode : SystemMode
  consecutive_anomalies : ℕ

/-- `actuator_commander_multi_thread.rs`: `ActuatorCommander::new` —
the three PID controllers with their gains, `Normal` mode, zero
anomaly counter (identical in `actuator_commander_async.rs`). -/
def ActuatorCommander.init : ActuatorCommander :=
  { pids := fun t =>
      match t with
      | SensorType.Force => PidController.new (3/2) (1/10) (1/20)
      | SensorType.Position => PidController.new (8/10) (2/10) (1/10)
      | SensorType.Temperature => PidController.new (5/10) (5/100) (1/100),
    system_mode := SystemMode.Normal,
    consecutive_anomalies := 0 }

/-- The per-quantity setpoint table used by every commander variant
(`Force => 30.0, Position => 0.0, Temperature => 240.0`). -/
def setpointFor : SensorType → ℚ
  | SensorType.Force => 30
  | SensorType.Position => 0
  | SensorType.Temperature => 240

/-- `actuator_commander_multi_thread.rs`: `ActuatorCommander::handle_sensor_data`
(lines 49-94), restricted to its control behaviour: PID with mode-based
de-rating runs on EVERY received reading (there is no anomaly branch in
this function), and the reading with its value overwritten by the control
effort is sent to the matching actuator.  Returns the post-state and the
command sent.  The transit-deadline accounting at the top only touches
the statistics and is independent of the returned command. -/
def ActuatorCommander.handle_sensor_data (c : ActuatorCommander)
    (data : SensorData) : ActuatorCommander × SensorData :=
  let setpoint := setpointFor data.sensor_type
  let scale : ℚ := if c.system_mode = SystemMode.Degraded then 1/2 else 1
  let r := (c.pids data.sensor_type).compute setpoint data.value (5/1000) scale
  let data := { data with value := r.1 }
  ({ c with pids := fun t =>
      if t = data.sensor_type then r.2 else c.pids t }, data)

/-- `actuator_commander_multi_thread.rs`: `ActuatorCommander::fail_safe`
(lines 118-154), exactly as written: the whole body is guarded by
`if data.anomaly`; the "Recovery logic" decrement is the `else` branch of
the `>= 10` check; at the end, if the mode is `EmergencyStop` the
anomalous reading is sent straight through as a command.  The returned
`Bool` records whether that pass-through send happened. -/
def ActuatorCommander.fail_safe (c : ActuatorCommander) (data : SensorData) :
    ActuatorCommander × Bool :=
  if data.anomaly then
    let count := c.consecutive_anomalies + 1
    let mode :=
      if count ≥ 3 ∧ c.system_mode ≠ SystemMode.EmergencyStop then
        SystemMode.Degraded
      else c.system_mode
    if count ≥ 10 then
      ({ c with
          system_mode := SystemMode.EmergencyStop
          consecutive_anomalies := count }, true)
    else
      let count := if count > 0 then count - 1 else count
      let mode :=
        if count = 0 ∧ mode = SystemMode.Degraded then SystemMode.Normal
        else mode
      ({ c with system_mode := mode, consecutive_anomalies := count },
        decide (mode = SystemMode.EmergencyStop))
  else (c, false)

/-- A concrete anomalous Force reading (value 999 is far outside the
`[5, 60]` Force band, so a sensor would forward it flagged). -/
def anomalousForceReading : SensorData :=
  { id := 1, sensor_type := SensorType.Force, value := 999, anomaly := true }

/-- Iterated `fail_safe` on a stream of anomalous readings (`data.anomaly
= true`; the other fields do not influence `fail_safe`). -/
def ActuatorCommander.afterAnomalies : ℕ → ActuatorCommander → ActuatorCommander
  | 0, c => c
  | n + 1, c =>
      ActuatorCommander.afterAnomalies n (c.fail_safe anomalousForceReading).1

/-- `actuator_multiThread.rs`: `ActuatorCommander::process_data` (lines
28-56), anomaly branch of the simpler pipeline variant: an anomalous
reading makes the function log `[E-STOP] ... System halted.` and return
before any PID computation, so no command is produced for it.  The
returned flag is `true` iff the E-STOP early return is taken. -/
def ActuatorCommanderSimple.halts_on (data : SensorData) : Bool :=
  data.anomaly

/-- `actuator_multi_thread.rs`: `Actuator::run` step 6 (lines 118-120),
identical in `actuator_async.rs` (lines 98-100): the generated feedback
is sent back iff `feedback.recalibrate_offset != 0.0`. -/
def Actuator.sends_feedback (fb : Feedback) : Bool :=
  decide (fb.recalibrate_offset ≠ 0)

/-- `actuator_multi_thread.rs`: `Actuator::generate_feedback`, 95%
branch — the plain acknowledgment. -/
def Actuator.ack_feedback : Feedback :=
  { is_ack := true, error_msg := "no", recalibrate_offset := 0 }

/-- `actuator_multi_thread.rs`: `Actuator::generate_feedback`, 5%
branch — a recalibration request with a sampled offset. -/
def Actuator.drift_feedback (offset : ℚ) : Feedback :=
  { is_ack := false, error_msg := "Random Drift Check",
    recalibrate_offset := offset }

/-- A concrete in-band Force reading used as a witness input. -/
def forceReading30 : SensorData :=
  { id := 1, sensor_type := SensorType.Force, value := 30, anomaly := false }

/-- Claim C1: the spec says `consecutive_anomaly_count` increments on
every anomalous reading, decrements on every non-anomalous one, and that
3 consecutive anomalies move a fresh commander to `Degraded` while 10
move it to `EmergencyStop`.  The code's `fail_safe` instead nests the
decrement ("Recovery logic") inside the anomaly branch, as the `else` of
the `>= 10` check, and does nothing at all on non-anomalous readings: on
every all-anomalous stream the counter returns to 0 each step and the
mode stays `Normal` forever — in particular after 3 and after 10
consecutive anomalies. -/
theorem failSafe_anomaly_stream_never_escalates :
    (∀ n : ℕ,
        (ActuatorCommander.afterAnomalies n ActuatorCommander.init).system_mode
            = SystemMode.Normal ∧
        (ActuatorCommander.afterAnomalies n
            ActuatorCommander.init).consecutive_anomalies = 0) ∧
    (ActuatorCommander.afterAnomalies 3 ActuatorCommander.init).system_mode
        = SystemMode.Normal ∧
    (ActuatorCommander.afterAnomalies 10 ActuatorCommander.init).system_mode
        = SystemMode.Normal := by
  have hstep : (ActuatorCommander.init.fail_safe anomalousForceReading).1
      = ActuatorCommander.init := rfl
  have hfix : ∀ n : ℕ,
      ActuatorCommander.afterAnomalies n ActuatorCommander.init
        = ActuatorCommander.init := by
    intro n
    induction n with
    | zero => rfl
    | succ k ih =>
        show ActuatorCommander.afterAnomalies k
            (ActuatorCommander.init.fail_safe anomalousForceReading).1
          = ActuatorCommander.init
        rw [hstep]
        exact ih
  refine ⟨fun n => ?_, ?_, ?_⟩
  · rw [hfix n]; exact ⟨rfl, rfl⟩
  · rw [hfix 3]; exact rfl
  · rw [hfix 10]; exact rfl

/-- Claim C2: the spec says an anomalous reading triggers the fail-safe
escalation before any PID computation and, in `EmergencyStop`, bypasses
PID and is routed straight through.  In the code, `fail_safe` has no call
site: `handle_sensor_data` runs PID on the anomalous reading like on any
other (the emitted command's value is the PID effort, not the raw 999)
and leaves the mode state machine untouched.  Only the parenthetical
about the simpler pipeline variant holds: `actuator_multiThread.rs`'s
`process_data` halts on an anomalous reading without producing a
command. -/
theorem handle_sensor_data_runs_pid_on_anomalous :
    (ActuatorCommander.init.handle_sensor_data anomalousForceReading).2.value
        = -22287969/2000 ∧
    (ActuatorCommander.init.handle_sensor_data anomalousForceReading).2.value
        ≠ anomalousForceReading.value ∧
    (ActuatorCommander.init.handle_sensor_data anomalousForceReading).1.system_mode
        = SystemMode.Normal ∧
    (ActuatorCommander.init.handle_sensor_data
        anomalousForceReading).1.consecutive_anomalies = 0 ∧
    ActuatorCommanderSimple.halts_on anomalousForceReading = true := by
  refine ⟨?_, ?_, rfl, rfl, rfl⟩ <;>
    · simp [ActuatorCommander.handle_sensor_data, ActuatorCommander.init,
        PidController.compute, PidController.new, setpointFor,
        anomalousForceReading]
      norm_num

/-- Claim C3: `PidController.compute(target, current, dt, scale)` with
`dt ≠ 0` sets `error = target - current`, accumulates `error * dt` into
the integral, stores `error` as `prev_error`, and returns
`(kp*error + ki*integral + kd*(error - prev_error)/dt) * scale`; on a
fresh controller, `compute(30, 30, 0.005, 1.0)` returns `0`. -/
theorem pid_compute_formula (p : PidController) (target current dt scale : ℚ)
    (hdt : dt ≠ 0) :
    (p.compute target current dt scale).1 =
      (p.kp * (target - current)
        + p.ki * (p.integral + (target - current) * dt)
        + p.kd * (((target - current) - p.prev_error) / dt)) * scale ∧
    (p.compute target current dt scale).2.integral
        = p.integral + (target - current) * dt ∧
    (p.compute target current dt scale).2.prev_error = target - current ∧
    ∀ kp ki kd : ℚ,
      ((PidController.new kp ki kd).compute 30 30 (5/1000) 1).1 = 0 := by
  refine ⟨rfl, rfl, rfl, fun kp ki kd => ?_⟩
  norm_num [PidController.compute, PidController.new]

/-- Claim C3 witness: the formula theorem applied to a concrete
controller with `dt = 0.005`. -/
theorem pid_compute_formula_witness :
    ((5 : ℚ)/1000 ≠ 0) ∧
    ((PidController.new (3/2) (1/10) (1/20)).compute 30 29 (5/1000) 1).1 =
        ((PidController.new (3/2) (1/10) (1/20)).kp * (30 - 29)
          + (PidController.new (3/2) (1/10) (1/20)).ki *
            ((PidController.new (3/2) (1/10) (1/20)).integral
              + (30 - 29) * (5/1000))
          + (PidController.new (3/2) (1/10) (1/20)).kd *
            (((30 - 29) - (PidController.new (3/2) (1/10) (1/20)).prev_error)
              / (5/1000))) * 1 ∧
    ((PidController.new (3/2) (1/10) (1/20)).compute 30 29 (5/1000) 1).2.integral
        = (PidController.new (3/2) (1/10) (1/20)).integral
          + (30 - 29) * (5/1000) ∧
    ((PidController.new (3/2) (1/10) (1/20)).compute 30 29 (5/1000) 1).2.prev_error
        = 30 - 29 ∧
    ((PidController.new (3/2) (1/10) (1/20)).compute 30 30 (5/1000) 1).1 = 0 :=
  have h := pid_compute_formula (PidController.new (3/2) (1/10) (1/20))
    30 29 (5/1000) 1 (by norm_num)
  ⟨by norm_num, h.1, h.2.1, h.2.2.1, h.2.2.2 (3/2) (1/10) (1/20)⟩

/-- Claim C4: the moving-average filter keeps at most 5 history entries
(evicting the oldest on the 6th push), every forwarded non-anomalous
reading carries the arithmetic mean of the buffer's current contents, and
feeding `[10,20,30,40,50,60]` through a fresh buffer yields a 6th
processed value of 40 (mean of the last 5 inputs, not of all 6). -/
theorem process_data_moving_average (s : Sensor) (d : SensorData) (e : ℕ)
    (hbuf : s.history_buffer.length ≤ 5)
    (hanom : (applyAnomaly d).anomaly = false) :
    ((s.process_data d e).1.history_buffer.length ≤ 5 ∧
      ∀ d', (s.process_data d e).2 = some d' →
        d'.value = (s.process_data d e).1.history_buffer.sum /
          (((s.process_data d e).1.history_buffer.length : ℕ) : ℚ)) ∧
    (Sensor.runRaws Sensor.init [10, 20, 30, 40, 50, 60]).2
        = [10, 15, 20, 25, 30, 40] := by
  have hb : ∀ v : ℚ, ((if s.history_buffer.length ≥ 5 then s.history_buffer.tail
      else s.history_buffer) ++ [v]).length ≤ 5 := by
    intro v
    by_cases h5 : s.history_buffer.length ≥ 5 <;>
      simp [h5, List.length_tail] <;> omega
  constructor
  · constructor
    · by_cases he : e > 200000 <;>
        simpa [Sensor.process_data, hanom, he] using hb (applyAnomaly d).value
    · intro d' hd'
      by_cases he : e > 200000
      · simp [Sensor.process_data, hanom, he] at hd'
      · simp [Sensor.process_data, hanom, he] at hd' ⊢
        rw [← hd']
  · norm_num [Sensor.runRaws, Sensor.process_data, Sensor.init, applyAnomaly,
      detect_anomaly, BenchmarkStats.new]

/-- Claim C4 witness: the moving-average theorem applied to a fresh
sensor, an in-band Force reading and zero elapsed processing time. -/
theorem process_data_moving_average_witness :
    (Sensor.init.history_buffer.length ≤ 5 ∧
      (applyAnomaly forceReading30).anomaly = false) ∧
    (Sensor.init.process_data forceReading30 0).1.history_buffer.length ≤ 5 ∧
    (Sensor.runRaws Sensor.init [10, 20, 30, 40, 50, 60]).2
        = [10, 15, 20, 25, 30, 40] :=
  have h := process_data_moving_average Sensor.init forceReading30 0
    (by simp [Sensor.init])
    (by norm_num [applyAnomaly, detect_anomaly, forceReading30])
  ⟨⟨by simp [Sensor.init],
    by norm_num [applyAnomaly, detect_anomaly, forceReading30]⟩,
    h.1.1, h.2⟩

/-- Claim C5: the anomaly flag follows the fixed per-quantity threshold
table — a Force reading is anomalous iff its value lies outside
`[5, 60]`, a Position reading iff its absolute value exceeds `0.5`, a
Temperature reading iff its value exceeds `120`; for any reading as
generated (flag initially `false`) the resulting flag equals the table
verdict, and concretely Force 61 is anomalous while Force 59 is not. -/
theorem anomaly_threshold_table :
    (∀ v : ℚ, detect_anomaly SensorType.Force v = true ↔ ¬(5 ≤ v ∧ v ≤ 60)) ∧
    (∀ v : ℚ, detect_anomaly SensorType.Position v = true ↔ |v| > 1/2) ∧
    (∀ v : ℚ, detect_anomaly SensorType.Temperature v = true ↔ v > 120) ∧
    (∀ (i : ℤ) (t : SensorType) (v : ℚ),
      (applyAnomaly ⟨i, t, v, false⟩).anomaly = detect_anomaly t v) ∧
    (applyAnomaly ⟨1, SensorType.Force, 61, false⟩).anomaly = true ∧
    (applyAnomaly ⟨1, SensorType.Force, 59, false⟩).anomaly = false := by
  refine ⟨fun v => ?_, fun v => ?_, fun v => ?_, fun i t v => ?_, ?_, ?_⟩
  · simp only [detect_anomaly, decide_eq_true_eq, not_and_or, not_le]
  · simp [detect_anomaly]
  · simp [detect_anomaly]
  · simp [applyAnomaly]
  · norm_num [applyAnomaly, detect_anomaly]
  · norm_num [applyAnomaly, detect_anomaly]

/-- Claim C6: `BenchmarkStats.merge` is associative and commutative —
count and total fields combine by addition, the two jitter maxima by
`max` — so per-thread partial statistics reduce to the same report in
any merge order. -/
theorem benchmark_merge_assoc_comm (a b c : BenchmarkStats) :
    (a.merge b).merge c = a.merge (b.merge c) ∧ a.merge b = b.merge a := by
  constructor <;>
    · simp only [BenchmarkStats.merge, BenchmarkStats.mk.injEq]
      refine ⟨?_, ?_, ?_, ?_, ?_, ?_, ?_, ?_, ?_, ?_, ?_, ?_, ?_⟩ <;> omega

/-- Claim C7: a non-anomalous reading whose local processing exceeds the
200 µs soft deadline is dropped (`process_data` returns `None`, nothing
is forwarded), the sensor deadline-miss counter is incremented by exactly
one, and the cycle continues (the `run` loop only breaks on a failed
transmission of a forwarded reading, never on a drop). -/
theorem process_data_deadline_miss_drops (s : Sensor) (d : SensorData) (e : ℕ)
    (hanom : (applyAnomaly d).anomaly = false) (he : e > 200000) :
    (s.process_data d e).2 = none ∧
    (s.process_data d e).1.benchmark_stats.sensor_missed_deadlines
        = s.benchmark_stats.sensor_missed_deadlines + 1 ∧
    ∀ transmit_ok : Bool,
      Sensor.cycleContinues (s.process_data d e).2 transmit_ok = true := by
  refine ⟨?_, ?_, ?_⟩ <;>
    simp [Sensor.process_data, hanom, he, Sensor.cycleContinues]

/-- Claim C7 witness: the deadline-drop theorem applied to a fresh
sensor, an in-band Force reading and a 250 µs processing time. -/
theorem process_data_deadline_miss_drops_witness :
    ((applyAnomaly forceReading30).anomaly = false ∧ 250000 > 200000) ∧
    (Sensor.init.process_data forceReading30 250000).2 = none ∧
    (Sensor.init.process_data forceReading30
      250000).1.benchmark_stats.sensor_missed_deadlines
        = Sensor.init.benchmark_stats.sensor_missed_deadlines + 1 ∧
    Sensor.cycleContinues (Sensor.init.process_data forceReading30 250000).2
      false = true :=
  have h := process_data_deadline_miss_drops Sensor.init forceReading30 250000
    (by norm_num [applyAnomaly, detect_anomaly, forceReading30])
    (by norm_num)
  ⟨⟨by norm_num [applyAnomaly, detect_anomaly, forceReading30], by norm_num⟩,
    h.1, h.2.1, h.2.2 false⟩

/-- Claim C8: the spec says a feedback-latency deadline miss is counted
exactly when the message's age exceeds the 500 µs budget.  The async
sensor (`sensor_async.rs`) does compare against 500 µs, but the threaded
sensor (`sensor_multiThread.rs`) compares against
`Duration::from_micros(100)` while its own log line claims
`(Limit: 500µs)`: a feedback message aged 200 µs is counted as a miss by
the threaded intake and not by the async one.  The general
characterisations of both intakes (miss iff age > 100 µs, resp. iff age
> 500 µs, and only a counter increment either way) are included. -/
theorem feedback_latency_threshold_mismatch :
    (Sensor.feedback_latency_check Sensor.init
        200000).benchmark_stats.actuator_missed_deadlines = 1 ∧
    (SensorAsync.feedback_latency_check Sensor.init
        200000).benchmark_stats.actuator_missed_deadlines = 0 ∧
    (∀ (s : Sensor) (age : ℕ),
      (Sensor.feedback_latency_check s age).benchmark_stats.actuator_missed_deadlines
        = (if age > 100000 then s.benchmark_stats.actuator_missed_deadlines + 1
           else s.benchmark_stats.actuator_missed_deadlines) ∧
      (Sensor.feedback_latency_check s age).history_buffer = s.history_buffer ∧
      (Sensor.feedback_latency_check s age).calibration_offset
          = s.calibration_offset) ∧
    (∀ (s : Sensor) (age : ℕ),
      (SensorAsync.feedback_latency_check s age).benchmark_stats.actuator_missed_deadlines
        = (if age > 500000 then s.benchmark_stats.actuator_missed_deadlines + 1
           else s.benchmark_stats.actuator_missed_deadlines) ∧
      (SensorAsync.feedback_latency_check s age).history_buffer
          = s.history_buffer ∧
      (SensorAsync.feedback_latency_check s age).calibration_offset
          = s.calibration_offset) := by
  refine ⟨?_, ?_, fun s age => ?_, fun s age => ?_⟩
  · simp [Sensor.feedback_latency_check, Sensor.init, BenchmarkStats.new]
  · simp [SensorAsync.feedback_latency_check, Sensor.init, BenchmarkStats.new]
  · by_cases h : age > 100000 <;> simp [Sensor.feedback_latency_check, h]
  · by_cases h : age > 500000 <;> simp [SensorAsync.feedback_latency_check, h]

/-- Claim C9: the actuator transmits its generated feedback back to the
originating sensor iff the recalibration offset is non-zero; the common
acknowledgment (`is_ack = true`, `recalibrate_offset = 0.0`) is generated
but never transmitted. -/
theorem feedback_sent_iff_nonzero_offset :
    (∀ fb : Feedback,
      Actuator.sends_feedback fb = true ↔ fb.recalibrate_offset ≠ 0) ∧
    Actuator.ack_feedback.is_ack = true ∧
    Actuator.ack_feedback.recalibrate_offset = 0 ∧
    Actuator.sends_feedback Actuator.ack_feedback = false ∧
    ∀ off : ℚ,
      Actuator.sends_feedback (Actuator.drift_feedback off)
        = Actuator.sends_feedback ⟨false, "Random Drift Check", off⟩ := by
  refine ⟨fun fb => ?_, rfl, rfl, ?_, fun off => rfl⟩
  · simp [Actuator.sends_feedback]
  · simp [Actuator.sends_feedback, Actuator.ack_feedback]

/-- Claim C10: every average accessor of `BenchmarkStats` is guarded
against division by zero — with `sensor_count = 0` the six sensor-side
averages return a zero duration and with `actuator_count = 0` so does
`avg_at_jitter`; `throughput` returns `0` for a zero run time — whereas
`sensor_deadline_rate` and `actuator_deadline_rate` divide unguarded
(embedded as `none`, the non-finite `f64` outcome) when the
corresponding count is `0`. -/
theorem stats_accessors_zero_guards :
    (∀ s : BenchmarkStats, s.sensor_count = 0 →
      s.avg_gen = 0 ∧ s.avg_proc = 0 ∧ s.avg_trans = 0 ∧ s.avg_jitter = 0 ∧
      s.avg_actuator = 0 ∧ s.avg_latency = 0 ∧
      s.sensor_deadline_rate = none) ∧
    (∀ s : BenchmarkStats, s.actuator_count = 0 →
      s.avg_at_jitter = 0 ∧ s.actuator_deadline_rate = none) ∧
    (∀ s : BenchmarkStats, s.throughput 0 = 0) := by
  refine ⟨fun s h => ?_, fun s h => ?_, fun s => ?_⟩
  · simp [BenchmarkStats.avg_gen, BenchmarkStats.avg_proc,
      BenchmarkStats.avg_trans, BenchmarkStats.avg_jitter,
      BenchmarkStats.avg_actuator, BenchmarkStats.avg_latency,
      BenchmarkStats.sensor_deadline_rate, h]
  · simp [BenchmarkStats.avg_at_jitter,
      BenchmarkStats.actuator_deadline_rate, h]
  · simp [BenchmarkStats.throughput]

/-- Claim C10 witness: the zero-guard theorem applied to the all-zero
`BenchmarkStats::new()`. -/
theorem stats_accessors_zero_guards_witness :
    (BenchmarkStats.new.sensor_count = 0 ∧
      BenchmarkStats.new.actuator_count = 0) ∧
    (BenchmarkStats.new.avg_gen = 0 ∧ BenchmarkStats.new.avg_proc = 0 ∧
      BenchmarkStats.new.avg_trans = 0 ∧ BenchmarkStats.new.avg_jitter = 0 ∧
      BenchmarkStats.new.avg_actuator = 0 ∧
      BenchmarkStats.new.avg_latency = 0 ∧
      BenchmarkStats.new.sensor_deadline_rate = none) ∧
    (BenchmarkStats.new.avg_at_jitter = 0 ∧
      BenchmarkStats.new.actuator_deadline_rate = none) ∧
    BenchmarkStats.new.throughput 0 = 0 :=
  ⟨⟨rfl, rfl⟩,
    stats_accessors_zero_guards.1 BenchmarkStats.new rfl,
    stats_accessors_zero_guards.2.1 BenchmarkStats.new rfl,
    stats_accessors_zero_guards.2.2 BenchmarkStats.new⟩

end RtsAssignment
